import Mathlib

/-!
# spacetraders-operator: the Agent reconciler

A shallow embedding of `internal/controller/agent_controller.go` and
`pkg/spacetraders/errors.go`.

* Go `error` values are `Option GoError` (`none` is `nil`); a `GoError` records the
  dynamic type of the value, because `errors.As` and `apierrors.IsNotFound` decide by it.
* The collaborators the reconciler talks to (the Kubernetes client and the generated
  SpaceTraders client) are a record of state-passing functions over an arbitrary state
  type, so that a theorem over all `Collaborators` holds for every behaviour of the
  API server and of the game API.
* A pass returns what `Reconcile` returns, the list of collaborator calls it made, in
  order and with their outcomes, and the final collaborator state.
-/

namespace SpacetradersOperator

/-! ## Go error values -/

/-- Struct `APIError` of `pkg/spacetraders/errors.go`. -/
structure APIError where
  StatusCode : Int
  Message : String
deriving DecidableEq

/-- A non-nil Go `error`, tagged with its dynamic type. `APIError` has its `Error` method
on the value receiver, so both `APIError` and `*APIError` implement `error`; they are
different dynamic types. -/
inductive GoError where
  /-- dynamic type `*spacetraders.APIError` -/
  | apiErrorPtr (e : APIError)
  /-- dynamic type `spacetraders.APIError` -/
  | apiErrorVal (e : APIError)
  /-- dynamic type `*json.SyntaxError`, with its text -/
  | jsonSyntaxError (text : String)
  /-- dynamic type `*json.UnmarshalTypeError`: JSON `value` does not fit Go type `goType` -/
  | jsonUnmarshalTypeError (value : String) (goType : String)
  /-- dynamic type `*apierrors.StatusError` (a Kubernetes API status) -/
  | status (reason : String) (code : Int) (message : String)
  /-- any other error without `Unwrap` and without `As` (transport, `fmt.Errorf`) -/
  | other (text : String)
  /-- an error with text `text` whose `Unwrap` gives `inner` (`fmt.Errorf` with `%w`) -/
  | wrap (text : String) (inner : GoError)
deriving DecidableEq

/-- Method `Error()` of each error value. -/
def GoError.Error : GoError → String
  | .apiErrorPtr e => e.Message
  | .apiErrorVal e => e.Message
  | .jsonSyntaxError text => text
  | .jsonUnmarshalTypeError value goType =>
      "json: cannot unmarshal " ++ value ++ " into Go value of type " ++ goType
  | .status _ _ message => message
  | .other text => text
  | .wrap text _ => text

/-- The call `errors.As(err, apiError)` with `apiError := &spacetraders.APIError{}`
(agent_controller.go lines 109-110). The target has type `*APIError`, so `errors.As` looks
along the `Unwrap` chain for an error whose dynamic type is assignable to `APIError`, the
struct type; a `*APIError` is not. On success the target is set to the value found. -/
def errorsAsAPIError : GoError → Option APIError
  | .apiErrorVal e => some e
  | .wrap _ inner => errorsAsAPIError inner
  | _ => none

/-- Function `reasonAndCodeForError` of apimachinery: the reason and code of the first
API status along the `Unwrap` chain, else `StatusReasonUnknown` (the empty string), 0. -/
def reasonAndCodeForError : GoError → String × Int
  | .status reason code _ => (reason, code)
  | .wrap _ inner => reasonAndCodeForError inner
  | _ => ("", 0)

/-- Map `knownReasons` of apimachinery `api/errors`. -/
def knownReasons : List String :=
  ["Unauthorized", "Forbidden", "NotFound", "AlreadyExists", "Conflict", "Gone", "Invalid",
   "ServerTimeout", "Timeout", "TooManyRequests", "BadRequest", "MethodNotAllowed",
   "NotAcceptable", "RequestEntityTooLarge", "UnsupportedMediaType", "InternalError",
   "Expired", "ServiceUnavailable"]

/-- Function `apierrors.IsNotFound`. -/
def IsNotFound (err : GoError) : Bool :=
  let rc := reasonAndCodeForError err
  if rc.1 = "NotFound" then true
  else if ¬ (rc.1 ∈ knownReasons) ∧ rc.2 = 404 then true
  else false

/-- Function `apierrors.IsConflict`. -/
def IsConflict (err : GoError) : Bool :=
  let rc := reasonAndCodeForError err
  if rc.1 = "Conflict" then true
  else if ¬ (rc.1 ∈ knownReasons) ∧ rc.2 = 409 then true
  else false

/-- Function `client.IgnoreNotFound` of controller-runtime. -/
def IgnoreNotFound (err : GoError) : Option GoError :=
  if IsNotFound err then none else some err

/-! ## Response bodies and `json.Unmarshal` into a string -/

/-- A JSON document. -/
inductive Json where
  | null
  | bool (b : Bool)
  | number (literal : String)
  | string (s : String)
  | array (items : List Json)
  | object (members : List (String × Json))

/-- A response body (`[]byte`) as `encoding/json` scans it: either the bytes are not one
JSON document, and the scanner reports `syntaxError`, or they are the document `doc`. -/
inductive Body where
  | invalid (syntaxError : String)
  | valid (doc : Json)

/-- The call `json.Unmarshal(body, &target)` for a `target` of Go type `string` holding
`current`: the new value of the target, or the error. JSON `null` leaves the target as it
is; a JSON string is stored; every other document is an `UnmarshalTypeError`. -/
def jsonUnmarshalString (body : Body) (current : String) : Except GoError String :=
  match body with
  | .invalid syntaxError => .error (.jsonSyntaxError syntaxError)
  | .valid .null => .ok current
  | .valid (.string s) => .ok s
  | .valid (.bool _) => .error (.jsonUnmarshalTypeError "bool" "string")
  | .valid (.number _) => .error (.jsonUnmarshalTypeError "number" "string")
  | .valid (.array _) => .error (.jsonUnmarshalTypeError "array" "string")
  | .valid (.object _) => .error (.jsonUnmarshalTypeError "object" "string")

/-- Function `NewAPIError` (errors.go lines 7-17). The body is unmarshalled into
`err.Message`, a `string`: in `if err := json.Unmarshal(body, &err.Message)` the right-hand
`err` is still the outer `*APIError`. A decode failure returns the decode error, otherwise
the `*APIError` itself is returned. -/
def NewAPIError (statusCode : Int) (body : Body) : Option GoError :=
  match jsonUnmarshalString body "" with
  | .error decodeErr => some decodeErr
  | .ok message => some (.apiErrorPtr { StatusCode := statusCode, Message := message })

/-! ## Kubernetes objects -/

/-- Type `metav1.ConditionStatus`. -/
inductive ConditionStatus where
  | ConditionTrue
  | ConditionFalse
  | ConditionUnknown
deriving DecidableEq

/-- Type `metav1.Condition`; `LastTransitionTime` 0 is the zero time. -/
structure Condition where
  CondType : String
  Status : ConditionStatus
  ObservedGeneration : Int
  LastTransitionTime : Nat
  Reason : String
  Message : String
deriving DecidableEq

/-- Struct `AgentSpec` (agent_types.go). -/
structure AgentSpec where
  Symbol : String
  Faction : String
deriving DecidableEq

/-- Struct `AgentStatus` (agent_types.go); a nil and an empty `Conditions` slice are both
the empty list. -/
structure AgentStatus where
  AccountID : String
  Headquarters : String
  Credits : Int
  StartingFaction : String
  ShipCount : Int
  Conditions : List Condition
deriving DecidableEq

/-- Struct `Agent` (agent_types.go) with the object metadata the reconciler reads. -/
structure Agent where
  Name : String
  Namespace : String
  UID : String
  Spec : AgentSpec
  Status : AgentStatus
deriving DecidableEq

/-- Type `metav1.OwnerReference`. -/
structure OwnerReference where
  APIVersion : String
  Kind : String
  Name : String
  UID : String
  Controller : Option Bool
  BlockOwnerDeletion : Option Bool
deriving DecidableEq

/-- Type `corev1.Secret`, the fields the reconciler sets. -/
structure Secret where
  Name : String
  Namespace : String
  Labels : List (String × String)
  OwnerReferences : List OwnerReference
  SecretType : String
  StringData : List (String × String)
  Immutable : Option Bool
deriving DecidableEq

/-- Type `types.NamespacedName` (also `client.ObjectKey` and the key of `ctrl.Request`). -/
structure NamespacedName where
  Namespace : String
  Name : String
deriving DecidableEq

/-- Type `schema.GroupVersionKind`. -/
structure GroupVersionKind where
  Group : String
  Version : String
  Kind : String
deriving DecidableEq

/-- What the reconciler needs of `*runtime.Scheme`: the kinds registered for the Go type
`Agent`. -/
structure Scheme where
  agentKinds : List GroupVersionKind

/-! ## `meta.SetStatusCondition` -/

/-- Function `meta.FindStatusCondition`: the first condition of the type. -/
def FindStatusCondition (conditions : List Condition) (conditionType : String) :
    Option Condition :=
  conditions.find? (fun c => c.CondType == conditionType)

/-- The in-place update `meta.SetStatusCondition` makes on the existing condition. -/
def updateExistingCondition (now : Nat) (existing newCondition : Condition) : Condition :=
  let c1 :=
    if existing.Status ≠ newCondition.Status then
      { existing with
        Status := newCondition.Status
        LastTransitionTime :=
          if newCondition.LastTransitionTime ≠ 0 then newCondition.LastTransitionTime
          else now }
    else existing
  let c2 := if c1.Reason ≠ newCondition.Reason then { c1 with Reason := newCondition.Reason } else c1
  let c3 :=
    if c2.Message ≠ newCondition.Message then { c2 with Message := newCondition.Message } else c2
  if c3.ObservedGeneration ≠ newCondition.ObservedGeneration then
    { c3 with ObservedGeneration := newCondition.ObservedGeneration }
  else c3

/-- Replace the first condition of type `conditionType` by `f` of it. -/
def modifyFirstOfType (conditionType : String) (f : Condition → Condition) :
    List Condition → List Condition
  | [] => []
  | c :: rest =>
      if c.CondType == conditionType then f c :: rest
      else c :: modifyFirstOfType conditionType f rest

/-- Function `meta.SetStatusCondition` of apimachinery, as a function from the old slice
to the new one; `now` is the reading of `time.Now()`. -/
def SetStatusCondition (now : Nat) (conditions : List Condition) (newCondition : Condition) :
    List Condition :=
  match FindStatusCondition conditions newCondition.CondType with
  | none =>
      conditions ++
        [if newCondition.LastTransitionTime = 0 then
           { newCondition with LastTransitionTime := now }
         else newCondition]
  | some _ =>
      modifyFirstOfType newCondition.CondType (updateExistingCondition now · newCondition)
        conditions

/-! ## The credential provisioner -/

/-- Method `GroupVersion().String()` of a `GroupVersionKind`. -/
def GroupVersionKind.apiVersion (gvk : GroupVersionKind) : String :=
  if gvk.Group = "" then gvk.Version else gvk.Group ++ "/" ++ gvk.Version

/-- Function `apiutil.GVKForObject` of controller-runtime for an `Agent`: the scheme must
know exactly one kind for the type. -/
def GVKForObject (scheme : Scheme) : Except GoError GroupVersionKind :=
  match scheme.agentKinds with
  | [] => .error (.other "no kind is registered for the type v1alpha1.Agent in scheme")
  | [gvk] => .ok gvk
  | _ :: _ :: _ =>
      .error (.other "multiple GroupVersionKinds associated with Go type v1alpha1.Agent")

/-- Function `validateOwner` of controller-runtime `controllerutil`. -/
def validateOwner (ownerNamespace objectNamespace : String) : Option GoError :=
  if ownerNamespace ≠ "" then
    if objectNamespace = "" then
      some (.other ("cluster-scoped resource must not have a namespace-scoped owner, owner namespace "
        ++ ownerNamespace))
    else if ownerNamespace ≠ objectNamespace then
      some (.other ("cross-namespace owner references are disallowed, owner namespace "
        ++ ownerNamespace ++ ", object namespace " ++ objectNamespace))
    else none
  else none

/-- Function `referSameObject` of `controllerutil`, the group being read off the
`APIVersion` string. -/
def referSameObject (a b : OwnerReference) : Bool :=
  a.APIVersion == b.APIVersion && a.Kind == b.Kind && a.Name == b.Name

/-- Function `upsertOwnerRef` of `controllerutil`. -/
def upsertOwnerRef (ref : OwnerReference) : List OwnerReference → List OwnerReference
  | [] => [ref]
  | r :: rest => if referSameObject r ref then ref :: rest else r :: upsertOwnerRef ref rest

/-- Function `ctrl.SetControllerReference(owner, controlled, scheme)` for an `Agent` owner
and a `Secret`: the secret with the controller reference set, or the error. -/
def SetControllerReference (owner : Agent) (controlled : Secret) (scheme : Scheme) :
    Except GoError Secret :=
  match validateOwner owner.Namespace controlled.Namespace with
  | some err => .error err
  | none =>
    match GVKForObject scheme with
    | .error err => .error err
    | .ok gvk =>
      let ref : OwnerReference :=
        { APIVersion := gvk.apiVersion
          Kind := gvk.Kind
          Name := owner.Name
          UID := owner.UID
          Controller := some true
          BlockOwnerDeletion := some true }
      match controlled.OwnerReferences.find? (fun r => r.Controller == some true) with
      | some existing =>
          if referSameObject existing ref then
            .ok { controlled with OwnerReferences := upsertOwnerRef ref controlled.OwnerReferences }
          else .error (.other ("Object " ++ controlled.Namespace ++ "/" ++ controlled.Name
            ++ " is already owned by another " ++ existing.Kind ++ " controller "
            ++ existing.Name))
      | none =>
          .ok { controlled with OwnerReferences := upsertOwnerRef ref controlled.OwnerReferences }

/-- Function `labelsForAccessTokenSecret` (agent_controller.go lines 213-220). -/
def labelsForAccessTokenSecret (name : String) : List (String × String) :=
  [("app.kubernetes.io/name", "spacetraders-operator"),
   ("app.kubernetes.io/instance", name),
   ("app.kubernetes.io/part-of", "spacetraders-operator"),
   ("app.kubernetes.io/created-by", "controller-manager")]

/-- Method `accessTokenSecretForAgent` (agent_controller.go lines 191-211). -/
def accessTokenSecretForAgent (scheme : Scheme) (agent : Agent) (token : String) :
    Except GoError Secret :=
  let ls := labelsForAccessTokenSecret agent.Name
  let secret : Secret :=
    { Name := agent.Name
      Namespace := agent.Namespace
      Labels := ls
      OwnerReferences := []
      SecretType := "Opaque"
      StringData := [("access-token", token)]
      Immutable := some true }
  match SetControllerReference agent secret scheme with
  | .error err => .error err
  | .ok owned => .ok owned

/-! ## Collaborators, calls and results -/

/-- Modelled from the spec: the request type `spacetraders.RegisterJSONRequestBody` of the
generated client, which is not among the sources; the registration takes
`(symbol, faction, email)`, and `Reconcile` fills exactly these fields, `Email` through a
pointer. -/
structure RegisterJSONRequestBody where
  Symbol : String
  Faction : String
  Email : Option String
deriving DecidableEq

/-- Modelled from the spec: the `JSON201` payload of a register response of the generated
client, which is not among the sources; a successful registration yields the token, read
by `assertAgentPresent` as `JSON201.Data.Token`. -/
structure Register201 where
  Token : String
deriving DecidableEq

/-- Modelled from the spec: the type `spacetraders.RegisterResponse` of the generated
client, which is not among the sources, with what `assertAgentPresent` reads of it: the
HTTP status code (`StatusCode()`), the raw body (`Body`), and the parsed success payload
`JSON201`, a pointer that can be nil. -/
structure RegisterResponse where
  StatusCode : Int
  Body : Body
  JSON201 : Option Register201

/-- Struct `AgentReconcilerConfig`. -/
structure AgentReconcilerConfig where
  EMail : String

/-- Type `ctrl.Result`. -/
structure Result where
  Requeue : Bool
  RequeueAfter : Nat
deriving DecidableEq

/-- How a call of `Reconcile` ends: it returns `(res, err)`, or it dereferences a nil
pointer. -/
inductive Outcome where
  | returned (res : Result) (err : Option GoError)
  | nilDereference

/-- One call to a collaborator, with its arguments and its outcome. -/
inductive Event where
  /-- the call `r.Get(ctx, key, agent)` -/
  | getAgent (key : NamespacedName) (res : Except GoError Agent)
  /-- the call `r.Status().Update(ctx, agent)` -/
  | statusUpdate (agent : Agent) (err : Option GoError)
  /-- the call `r.Get(ctx, key, found)` for a secret -/
  | getSecret (key : NamespacedName) (res : Except GoError Secret)
  /-- the call `r.Spacetraders.RegisterWithResponse(ctx, body)` -/
  | register (body : RegisterJSONRequestBody) (res : Except GoError RegisterResponse)
  /-- the call `r.Create(ctx, secret)` -/
  | createSecret (secret : Secret) (err : Option GoError)

/-- The collaborators of `AgentReconciler`, over a state `σ` of the outside world: the
embedded `client.Client`, the `Spacetraders` client, and the clock read by
`meta.SetStatusCondition`. Each call returns its result and the next state. -/
structure Collaborators (σ : Type) where
  GetAgent : NamespacedName → σ → Except GoError Agent × σ
  StatusUpdate : Agent → σ → Option GoError × σ
  GetSecret : NamespacedName → σ → Except GoError Secret × σ
  Create : Secret → σ → Option GoError × σ
  RegisterWithResponse : RegisterJSONRequestBody → σ → Except GoError RegisterResponse × σ
  Now : σ → Nat

/-- What a stretch of a pass yields: how it ended, the calls it made, the final state. -/
abbrev Pass (σ : Type) := Outcome × List Event × σ

/-- How `assertAgentPresent` ends: it returns the pair `(token, err)`, the token being a
pointer, or it dereferences a nil pointer. -/
inductive AssertResult where
  | returned (token : Option String) (err : Option GoError)
  | nilDereference

/-- Put the calls `evs`, made earlier, in front of the calls of `p`. -/
def Pass.prepend {σ : Type} (evs : List Event) (p : Pass σ) : Pass σ :=
  (p.1, evs ++ p.2.1, p.2.2)

/-! ## The reconciler -/

/-- Constant `typeRegisteredAgent`. -/
def typeRegisteredAgent : String := "Registered"

/-- The literal `metav1.Condition` the reconciler passes to `meta.SetStatusCondition`:
type `typeRegisteredAgent`, the other fields left at their zero values. -/
def registeredCondition (status : ConditionStatus) (reason message : String) : Condition :=
  { CondType := typeRegisteredAgent
    Status := status
    ObservedGeneration := 0
    LastTransitionTime := 0
    Reason := reason
    Message := message }

/-- The statement `meta.SetStatusCondition(&agent.Status.Conditions, cond)`. -/
def Agent.setCondition (agent : Agent) (now : Nat) (cond : Condition) : Agent :=
  { agent with
    Status := { agent.Status with
      Conditions := SetStatusCondition now agent.Status.Conditions cond } }

/-- Method `assertAgentPresent` (agent_controller.go lines 55-66). Reading
`&registerResponse.JSON201.Data.Token` through a nil `JSON201` is a nil dereference. -/
def assertAgentPresent {σ : Type} (c : Collaborators σ) (body : RegisterJSONRequestBody)
    (s : σ) : AssertResult × List Event × σ :=
  match c.RegisterWithResponse body s with
  | (.error err, s1) => (.returned none (some err), [.register body (.error err)], s1)
  | (.ok registerResponse, s1) =>
    if registerResponse.StatusCode ≠ 201 then
      (.returned none (NewAPIError registerResponse.StatusCode registerResponse.Body),
        [.register body (.ok registerResponse)], s1)
    else
      match registerResponse.JSON201 with
      | none => (.nilDereference, [.register body (.ok registerResponse)], s1)
      | some json201 =>
          (.returned (some json201.Token) none, [.register body (.ok registerResponse)], s1)

/-- The block that `Reconcile` repeats at lines 111-123, 126-139, 145-158 and 173-185: set
the Registered condition to False with `reason` and `message`, update the status, and
return the error of the update if it failed, else the error `cause` that led here; the
result is `ctrl.Result{Requeue: requeue}`. -/
def recordFailure {σ : Type} (c : Collaborators σ) (agent : Agent) (cause : GoError)
    (reason message : String) (requeue : Bool) (s : σ) : Pass σ :=
  let agent1 := agent.setCondition (c.Now s) (registeredCondition .ConditionFalse reason message)
  match c.StatusUpdate agent1 s with
  | (some updateErr, s1) =>
      (.returned { Requeue := requeue, RequeueAfter := 0 } (some updateErr),
        [.statusUpdate agent1 (some updateErr)], s1)
  | (none, s1) =>
      (.returned { Requeue := requeue, RequeueAfter := 0 } (some cause),
        [.statusUpdate agent1 none], s1)

/-- Lines 103-169 of `Reconcile`: the branch taken when the secret is not found. -/
def registerAndCreate {σ : Type} (c : Collaborators σ) (cfg : AgentReconcilerConfig)
    (scheme : Scheme) (agent : Agent) (s : σ) : Pass σ :=
  let body : RegisterJSONRequestBody :=
    { Symbol := agent.Spec.Symbol, Faction := agent.Spec.Faction, Email := some cfg.EMail }
  match assertAgentPresent c body s with
  | (.nilDereference, evs, s1) => (.nilDereference, evs, s1)
  | (.returned _ (some err), evs, s1) =>
      match errorsAsAPIError err with
      | some apiError =>
          Pass.prepend evs (recordFailure c agent err "Failed" apiError.Message false s1)
      | none => Pass.prepend evs (recordFailure c agent err "Error" err.Error false s1)
  | (.returned none none, evs, s1) => (.nilDereference, evs, s1)
  | (.returned (some token) none, evs, s1) =>
      match accessTokenSecretForAgent scheme agent token with
      | .error err => Pass.prepend evs (recordFailure c agent err "Error" err.Error false s1)
      | .ok accessTokenSecret =>
          match c.Create accessTokenSecret s1 with
          | (some err, s2) =>
              (.returned { Requeue := false, RequeueAfter := 0 } (some err),
                evs ++ [.createSecret accessTokenSecret (some err)], s2)
          | (none, s2) =>
              (.returned { Requeue := true, RequeueAfter := 0 } none,
                evs ++ [.createSecret accessTokenSecret none], s2)

/-- Lines 100-188 of `Reconcile`: look the secret up and act on the answer. -/
def reconcileSecret {σ : Type} (c : Collaborators σ) (cfg : AgentReconcilerConfig)
    (scheme : Scheme) (req : NamespacedName) (agent : Agent) (s : σ) : Pass σ :=
  let key : NamespacedName := { Namespace := req.Namespace, Name := agent.Name }
  match c.GetSecret key s with
  | (.error err, s1) =>
      if IsNotFound err then
        Pass.prepend [.getSecret key (.error err)] (registerAndCreate c cfg scheme agent s1)
      else
        Pass.prepend [.getSecret key (.error err)]
          (recordFailure c agent err "Error" err.Error true s1)
  | (.ok found, s1) =>
      (.returned { Requeue := false, RequeueAfter := 0 } none, [.getSecret key (.ok found)], s1)

/-- Method `Reconcile` (agent_controller.go lines 72-189). -/
def Reconcile {σ : Type} (c : Collaborators σ) (cfg : AgentReconcilerConfig) (scheme : Scheme)
    (req : NamespacedName) (s : σ) : Pass σ :=
  match c.GetAgent req s with
  | (.error err, s1) =>
      (.returned { Requeue := false, RequeueAfter := 0 } (IgnoreNotFound err),
        [.getAgent req (.error err)], s1)
  | (.ok agent, s1) =>
    if agent.Status.Conditions = [] then
      let agent1 := agent.setCondition (c.Now s1)
        (registeredCondition .ConditionUnknown "Reconciling" "Starting to reconcile Agent")
      match c.StatusUpdate agent1 s1 with
      | (some err, s2) =>
          (.returned { Requeue := false, RequeueAfter := 0 } (some err),
            [.getAgent req (.ok agent), .statusUpdate agent1 (some err)], s2)
      | (none, s2) =>
        match c.GetAgent req s2 with
        | (.error err, s3) =>
            (.returned { Requeue := false, RequeueAfter := 0 } (some err),
              [.getAgent req (.ok agent), .statusUpdate agent1 none,
               .getAgent req (.error err)], s3)
        | (.ok agent2, s3) =>
            Pass.prepend
              [.getAgent req (.ok agent), .statusUpdate agent1 none, .getAgent req (.ok agent2)]
              (reconcileSecret c cfg scheme req agent2 s3)
    else
      Pass.prepend [.getAgent req (.ok agent)] (reconcileSecret c cfg scheme req agent s1)

/-- What the dispatcher (`reconcileHandler` of controller-runtime) does with the pair a
pass returns: it puts the request back on the queue when the error is non-nil, when
`RequeueAfter` is positive, or when `Requeue` is set; otherwise it forgets the request. -/
def requeueRequested (res : Result) (err : Option GoError) : Bool :=
  err.isSome || decide (0 < res.RequeueAfter) || res.Requeue

/-! ## Reading a trace -/

/-- Number of calls to the registration API in a trace. -/
def registrations (t : List Event) : Nat :=
  t.countP (fun e => match e with | .register _ _ => true | _ => false)

/-- Number of `Create` calls for a secret in a trace. -/
def secretCreations (t : List Event) : Nat :=
  t.countP (fun e => match e with | .createSecret _ _ => true | _ => false)

/-- Number of status updates in a trace. -/
def statusUpdates (t : List Event) : Nat :=
  t.countP (fun e => match e with | .statusUpdate _ _ => true | _ => false)

/-- The Registered condition of an agent, as `meta.FindStatusCondition` finds it. -/
def Agent.registered (agent : Agent) : Option Condition :=
  FindStatusCondition agent.Status.Conditions typeRegisteredAgent

/-! ## A store-backed collaborator

The API server and the game API as one concrete state machine: objects are kept in
lists and looked up by namespace and name, every call can be made to fail by an injected
fault, and the answers of the registration endpoint are arbitrary. The store changes only
through `StatusUpdate` and `Create`. -/

/-- The objects the API server holds. -/
structure Store where
  agents : List Agent
  secrets : List Secret

/-- The outside world: the store and the number of calls served so far. -/
structure World where
  store : Store
  tick : Nat

/-- The behaviour of the outside world that the reconciler does not control: a fault (or
none) for each call, by the number of calls served before it, the answers of the
registration endpoint, and the clock. -/
structure Env where
  agentGetFault : Nat → Option GoError
  statusUpdateFault : Nat → Option GoError
  secretGetFault : Nat → Option GoError
  createFault : Nat → Option GoError
  api : Nat → RegisterJSONRequestBody → Except GoError RegisterResponse
  clock : Nat → Nat

/-- The NotFound status error of the API server. -/
def notFoundError (name : String) : GoError :=
  .status "NotFound" 404 (name ++ " not found")

/-- The AlreadyExists status error of the API server. -/
def alreadyExistsError (name : String) : GoError :=
  .status "AlreadyExists" 409 (name ++ " already exists")

/-- Whether an agent is stored under the key. -/
def Agent.hasKey (key : NamespacedName) (a : Agent) : Bool :=
  a.Namespace == key.Namespace && a.Name == key.Name

/-- Whether a secret is stored under the key. -/
def Secret.hasKey (key : NamespacedName) (x : Secret) : Bool :=
  x.Namespace == key.Namespace && x.Name == key.Name

/-- The store-backed collaborators. -/
def storeCollab (env : Env) : Collaborators World where
  GetAgent key w :=
    match env.agentGetFault w.tick with
    | some err => (.error err, { w with tick := w.tick + 1 })
    | none =>
      match w.store.agents.find? (Agent.hasKey key) with
      | some a => (.ok a, { w with tick := w.tick + 1 })
      | none => (.error (notFoundError key.Name), { w with tick := w.tick + 1 })
  StatusUpdate agent w :=
    match env.statusUpdateFault w.tick with
    | some err => (some err, { w with tick := w.tick + 1 })
    | none =>
      let key : NamespacedName := { Namespace := agent.Namespace, Name := agent.Name }
      if w.store.agents.any (Agent.hasKey key) then
        (none,
          { store :=
              { w.store with
                agents := w.store.agents.map (fun a =>
                  if Agent.hasKey key a then { a with Status := agent.Status } else a) }
            tick := w.tick + 1 })
      else (some (notFoundError agent.Name), { w with tick := w.tick + 1 })
  GetSecret key w :=
    match env.secretGetFault w.tick with
    | some err => (.error err, { w with tick := w.tick + 1 })
    | none =>
      match w.store.secrets.find? (Secret.hasKey key) with
      | some x => (.ok x, { w with tick := w.tick + 1 })
      | none => (.error (notFoundError key.Name), { w with tick := w.tick + 1 })
  Create secret w :=
    match env.createFault w.tick with
    | some err => (some err, { w with tick := w.tick + 1 })
    | none =>
      let key : NamespacedName := { Namespace := secret.Namespace, Name := secret.Name }
      if w.store.secrets.any (Secret.hasKey key) then
        (some (alreadyExistsError secret.Name), { w with tick := w.tick + 1 })
      else
        (none,
          { store := { w.store with secrets := w.store.secrets ++ [secret] }
            tick := w.tick + 1 })
  RegisterWithResponse body w := (env.api w.tick body, { w with tick := w.tick + 1 })
  Now w := env.clock w.tick

/-- The worlds after each of `n` successive passes for `req`, with the trace of each
pass, the first pass starting from `w`. -/
def runPasses (env : Env) (cfg : AgentReconcilerConfig) (scheme : Scheme) (req : NamespacedName) :
    Nat → World → List (Pass World)
  | 0, _ => []
  | n + 1, w =>
      let p := Reconcile (storeCollab env) cfg scheme req w
      p :: runPasses env cfg scheme req n p.2.2

/-! ## Sample data -/

/-- An environment without faults whose registration endpoint answers every request
with `answer`. -/
def quietEnv (answer : Except GoError RegisterResponse) : Env where
  agentGetFault _ := none
  statusUpdateFault _ := none
  secretGetFault _ := none
  createFault _ := none
  api _ _ := answer
  clock n := n + 1

/-- The request for the sample agent. -/
def sampleReq : NamespacedName := { Namespace := "default", Name := "engineer" }

/-- A new agent, without conditions. -/
def sampleAgent : Agent :=
  { Name := "engineer"
    Namespace := "default"
    UID := "uid-1"
    Spec := { Symbol := "ENGINEER", Faction := "COSMIC" }
    Status :=
      { AccountID := "", Headquarters := "", Credits := 0, StartingFaction := "",
        ShipCount := 0, Conditions := [] } }

/-- The configuration of the sample runs. -/
def sampleConfig : AgentReconcilerConfig := { EMail := "ops@example.org" }

/-- A scheme that knows the kind of `Agent`. -/
def sampleScheme : Scheme :=
  { agentKinds := [{ Group := "spacetraders.hafer.dev", Version := "v1alpha1", Kind := "Agent" }] }

/-- A 201 answer carrying the token `tok-123`. -/
def sampleCreated : RegisterResponse :=
  { StatusCode := 201
    Body := .valid (.object [("data", .object [("token", .string "tok-123")])])
    JSON201 := some { Token := "tok-123" } }

/-- A world that holds only the sample agent. -/
def sampleWorld : World := { store := { agents := [sampleAgent], secrets := [] }, tick := 0 }

/-- The sample agent once its Registered condition is Unknown. -/
def pendingAgent : Agent :=
  { sampleAgent with
    Status := { sampleAgent.Status with
      Conditions :=
        [{ CondType := "Registered", Status := .ConditionUnknown, ObservedGeneration := 0,
           LastTransitionTime := 2, Reason := "Reconciling",
           Message := "Starting to reconcile Agent" }] } }

/-- The credential secret of the sample agent. -/
def sampleSecret : Secret :=
  { Name := "engineer"
    Namespace := "default"
    Labels :=
      [("app.kubernetes.io/name", "spacetraders-operator"),
       ("app.kubernetes.io/instance", "engineer"),
       ("app.kubernetes.io/part-of", "spacetraders-operator"),
       ("app.kubernetes.io/created-by", "controller-manager")]
    OwnerReferences :=
      [{ APIVersion := "spacetraders.hafer.dev/v1alpha1", Kind := "Agent", Name := "engineer",
         UID := "uid-1", Controller := some true, BlockOwnerDeletion := some true }]
    SecretType := "Opaque"
    StringData := [("access-token", "tok-123")]
    Immutable := some true }

/-- A world in which the sample agent is pending and its secret exists. -/
def settledWorld : World :=
  { store := { agents := [pendingAgent], secrets := [sampleSecret] }, tick := 0 }

/-- A world without objects. -/
def emptyWorld : World := { store := { agents := [], secrets := [] }, tick := 0 }

/-! ## Definitions used to state and prove the theorems -/

/-- The request body `Reconcile` builds at lines 103-107. -/
def registerBody (cfg : AgentReconcilerConfig) (agent : Agent) : RegisterJSONRequestBody :=
  { Symbol := agent.Spec.Symbol, Faction := agent.Spec.Faction, Email := some cfg.EMail }

/-- The value `assertAgentPresent` yields for an answer of the registration call. -/
def assertResult : Except GoError RegisterResponse → AssertResult
  | .error err => .returned none (some err)
  | .ok registerResponse =>
    if registerResponse.StatusCode ≠ 201 then
      .returned none (NewAPIError registerResponse.StatusCode registerResponse.Body)
    else
      match registerResponse.JSON201 with
      | none => .nilDereference
      | some json201 => .returned (some json201.Token) none

/-- The rest of `registerAndCreate` once the registration call has answered `r` and left
the state `s1`. -/
def registerTail {σ : Type} (c : Collaborators σ) (scheme : Scheme) (agent : Agent)
    (body : RegisterJSONRequestBody) (r : Except GoError RegisterResponse) (s1 : σ) : Pass σ :=
  match assertResult r with
  | .nilDereference => (.nilDereference, [.register body r], s1)
  | .returned _ (some err) =>
      match errorsAsAPIError err with
      | some apiError =>
          Pass.prepend [.register body r]
            (recordFailure c agent err "Failed" apiError.Message false s1)
      | none =>
          Pass.prepend [.register body r] (recordFailure c agent err "Error" err.Error false s1)
  | .returned none none => (.nilDereference, [.register body r], s1)
  | .returned (some token) none =>
      match accessTokenSecretForAgent scheme agent token with
      | .error err =>
          Pass.prepend [.register body r] (recordFailure c agent err "Error" err.Error false s1)
      | .ok accessTokenSecret =>
          (.returned { Requeue := (c.Create accessTokenSecret s1).1.isNone, RequeueAfter := 0 }
              (c.Create accessTokenSecret s1).1,
            [.register body r, .createSecret accessTokenSecret (c.Create accessTokenSecret s1).1],
            (c.Create accessTokenSecret s1).2)

/-- Whether the store holds a secret under the key. -/
def Store.hasSecret (st : Store) (key : NamespacedName) : Bool :=
  st.secrets.any (Secret.hasKey key)

/-- A 409 answer whose body is the JSON object with `status` and `message`. -/
def sampleRejected : RegisterResponse :=
  { StatusCode := 409
    Body := .valid (.object [("status", .number "409"),
      ("message", .string "symbol already in use")])
    JSON201 := none }

/-- A 409 answer whose body is the bare JSON string with the message. -/
def sampleRejectedString : RegisterResponse :=
  { StatusCode := 409
    Body := .valid (.string "symbol already in use")
    JSON201 := none }

/-- A 502 answer whose body is not JSON. -/
def sampleGarbled : RegisterResponse :=
  { StatusCode := 502
    Body := .invalid "unexpected end of JSON input"
    JSON201 := none }

/-- A world in which the sample agent is pending and has no secret. -/
def pendingWorld : World :=
  { store := { agents := [pendingAgent], secrets := [] }, tick := 0 }

/-- The Conflict status error the API server answers to a stale update. -/
def conflictError : GoError :=
  .status "Conflict" 409 "the object has been modified; please apply your changes to the latest version and try again"

/-- An environment in which the call served second, and only it, meets a conflict when
it is a status update. -/
def conflictEnv : Env :=
  { quietEnv (.ok sampleCreated) with
    statusUpdateFault := fun n => if n = 1 then some conflictError else none }

/-- An environment whose secret lookups fail with an internal error when they are the
call served eighth, and whose other calls meet no fault. -/
def flakyEnv : Env :=
  { quietEnv (.ok sampleCreated) with
    secretGetFault := fun n =>
      if n = 7 then some (.status "InternalError" 500 "etcdserver: request timed out") else none }

/-- The status, reason and message of a condition. -/
def Condition.summary (cnd : Condition) : ConditionStatus × String × String :=
  (cnd.Status, cnd.Reason, cnd.Message)

/-- The summaries of the Registered conditions of the stored agents. -/
def World.registeredSummaries (w : World) : List (Option (ConditionStatus × String × String)) :=
  w.store.agents.map (fun a => a.registered.map Condition.summary)

/-! ## Lemmas on conditions -/

theorem find_modifyFirstOfType (t : String) (f : Condition → Condition)
    (hf : ∀ c, (f c).CondType = c.CondType) (conds : List Condition) :
    FindStatusCondition (modifyFirstOfType t f conds) t
      = (FindStatusCondition conds t).map f := by
  induction conds with
  | nil => rfl
  | cons c rest ih =>
    unfold FindStatusCondition at ih ⊢
    by_cases h : (c.CondType == t) = true
    · simp [modifyFirstOfType, h, List.find?_cons, hf]
    · have h2 : (c.CondType == t) = false := by simpa using h
      simpa [modifyFirstOfType, h2, List.find?_cons] using ih

theorem updateExistingCondition_type (now : Nat) (e n : Condition) :
    (updateExistingCondition now e n).CondType = e.CondType := by
  unfold updateExistingCondition
  simp only
  repeat' split
  all_goals rfl

theorem updateExistingCondition_fields (now : Nat) (e n : Condition) :
    (updateExistingCondition now e n).Status = n.Status
      ∧ (updateExistingCondition now e n).Reason = n.Reason
      ∧ (updateExistingCondition now e n).Message = n.Message := by
  unfold updateExistingCondition
  simp only
  refine ⟨?_, ?_, ?_⟩
  all_goals repeat' split
  all_goals simp_all

/-- After `meta.SetStatusCondition`, the condition found for the type carries the status,
reason and message of the new condition. -/
theorem find_SetStatusCondition (now : Nat) (conds : List Condition) (n : Condition) :
    ∃ c, FindStatusCondition (SetStatusCondition now conds n) n.CondType = some c
      ∧ c.Status = n.Status ∧ c.Reason = n.Reason ∧ c.Message = n.Message := by
  unfold SetStatusCondition
  cases h : FindStatusCondition conds n.CondType with
  | none =>
    simp only
    unfold FindStatusCondition at h ⊢
    rw [List.find?_append, h]
    by_cases hz : n.LastTransitionTime = 0 <;> simp [hz]
  | some e =>
    simp only
    rw [find_modifyFirstOfType _ _ (fun c => updateExistingCondition_type now c n), h]
    exact ⟨_, rfl, updateExistingCondition_fields now e n⟩

/-- The Registered condition of an agent after `setCondition` with a Registered
condition. -/
theorem registered_setCondition (agent : Agent) (now : Nat) (status : ConditionStatus)
    (reason message : String) :
    ∃ c, (agent.setCondition now (registeredCondition status reason message)).registered = some c
      ∧ c.Status = status ∧ c.Reason = reason ∧ c.Message = message := by
  have h := find_SetStatusCondition now agent.Status.Conditions
    (registeredCondition status reason message)
  simpa [Agent.registered, Agent.setCondition, registeredCondition] using h

/-! ## Closed forms of the steps of a pass -/

theorem assertAgentPresent_eq {σ : Type} (c : Collaborators σ) (body : RegisterJSONRequestBody)
    (s : σ) :
    assertAgentPresent c body s
      = (assertResult (c.RegisterWithResponse body s).1,
          [.register body (c.RegisterWithResponse body s).1],
          (c.RegisterWithResponse body s).2) := by
  unfold assertAgentPresent assertResult
  rcases h : c.RegisterWithResponse body s with ⟨_ | resp, s1⟩
  · rfl
  · simp only
    split
    · rfl
    · split <;> simp_all

theorem recordFailure_eq {σ : Type} (c : Collaborators σ) (agent : Agent) (cause : GoError)
    (reason message : String) (requeue : Bool) (s : σ) :
    recordFailure c agent cause reason message requeue s
      = (.returned { Requeue := requeue, RequeueAfter := 0 }
          (some (((c.StatusUpdate
            (agent.setCondition (c.Now s) (registeredCondition .ConditionFalse reason message))
            s).1).getD cause)),
         [.statusUpdate
            (agent.setCondition (c.Now s) (registeredCondition .ConditionFalse reason message))
            (c.StatusUpdate
              (agent.setCondition (c.Now s) (registeredCondition .ConditionFalse reason message))
              s).1],
         (c.StatusUpdate
            (agent.setCondition (c.Now s) (registeredCondition .ConditionFalse reason message))
            s).2) := by
  unfold recordFailure
  simp only
  split <;> simp_all

theorem registerAndCreate_eq {σ : Type} (c : Collaborators σ) (cfg : AgentReconcilerConfig)
    (scheme : Scheme) (agent : Agent) (s : σ) :
    registerAndCreate c cfg scheme agent s
      = registerTail c scheme agent (registerBody cfg agent)
          (c.RegisterWithResponse (registerBody cfg agent) s).1
          (c.RegisterWithResponse (registerBody cfg agent) s).2 := by
  unfold registerAndCreate registerTail registerBody
  simp only [assertAgentPresent_eq]
  generalize c.RegisterWithResponse _ s = p
  cases assertResult p.1 with
  | nilDereference => rfl
  | returned token err =>
    cases token <;> cases err <;> try rfl
    rename_i t
    simp only
    cases accessTokenSecretForAgent scheme agent t with
    | error e => rfl
    | ok x =>
      simp only
      split <;> simp_all

/-! ## Facts about every pass -/

theorem fst_of_eq {α β : Type} {p : α × β} {a : α} {b : β} (h : p = (a, b)) : p.1 = a := by
  rw [h]

theorem reconcile_counts {σ : Type} (c : Collaborators σ)
    (cfg : AgentReconcilerConfig) (scheme : Scheme) (req : NamespacedName) (s : σ) :
    statusUpdates (Reconcile c cfg scheme req s).2.1 ≤ 2
      ∧ secretCreations (Reconcile c cfg scheme req s).2.1 ≤ 1
      ∧ registrations (Reconcile c cfg scheme req s).2.1 ≤ 1 := by
  unfold Reconcile reconcileSecret
  simp only [registerAndCreate_eq, registerTail, recordFailure_eq, Pass.prepend]
  repeat' split
  all_goals simp_all [statusUpdates, secretCreations, registrations]

theorem failed_update_last {σ : Type} (c : Collaborators σ) (cfg : AgentReconcilerConfig)
    (scheme : Scheme) (req : NamespacedName) (s : σ) (agent : Agent) (err : GoError)
    (hmem : Event.statusUpdate agent (some err) ∈ (Reconcile c cfg scheme req s).2.1) :
    (Reconcile c cfg scheme req s).2.1.getLast? = some (.statusUpdate agent (some err))
      ∧ Event.statusUpdate agent (some err) ∉ (Reconcile c cfg scheme req s).2.1.dropLast
      ∧ ∃ res, (Reconcile c cfg scheme req s).1 = .returned res (some err) := by
  revert hmem
  unfold Reconcile reconcileSecret
  simp only [registerAndCreate_eq, registerTail, recordFailure_eq, Pass.prepend]
  repeat' split
  all_goals simp_all
  all_goals
    intro h1 h2
    subst h1
    simp [← h2]
  all_goals
    intro h3
    rw [← h3, ← h2]
    simp

theorem early_updates_initial {σ : Type} (c : Collaborators σ) (cfg : AgentReconcilerConfig)
    (scheme : Scheme) (req : NamespacedName) (s : σ) (a : Agent) (r : Option GoError)
    (hmem : Event.statusUpdate a r ∈ (Reconcile c cfg scheme req s).2.1.dropLast) :
    r = none ∧ ∃ (agent0 : Agent) (now : Nat),
      a = agent0.setCondition now
        (registeredCondition .ConditionUnknown "Reconciling" "Starting to reconcile Agent") := by
  revert hmem
  unfold Reconcile reconcileSecret
  simp only [registerAndCreate_eq, registerTail, recordFailure_eq, Pass.prepend]
  repeat' split
  all_goals simp_all
  all_goals
    intro _ _
    exact ⟨_, _, rfl⟩

theorem found_secret_last {σ : Type} (c : Collaborators σ) (cfg : AgentReconcilerConfig)
    (scheme : Scheme) (req : NamespacedName) (s : σ) (key : NamespacedName) (found : Secret)
    (hmem : Event.getSecret key (.ok found) ∈ (Reconcile c cfg scheme req s).2.1) :
    (Reconcile c cfg scheme req s).2.1.getLast? = some (.getSecret key (.ok found))
      ∧ (Reconcile c cfg scheme req s).1
          = .returned { Requeue := false, RequeueAfter := 0 } none := by
  revert hmem
  unfold Reconcile reconcileSecret
  simp only [registerAndCreate_eq, registerTail, recordFailure_eq, Pass.prepend]
  repeat' split
  all_goals simp_all

theorem register_after_notFound {σ : Type} (c : Collaborators σ) (cfg : AgentReconcilerConfig)
    (scheme : Scheme) (req : NamespacedName) (s : σ) (body : RegisterJSONRequestBody)
    (r : Except GoError RegisterResponse)
    (hmem : Event.register body r ∈ (Reconcile c cfg scheme req s).2.1) :
    ∃ (pre tail : List Event) (e : GoError) (agent : Agent),
      (Reconcile c cfg scheme req s).2.1
          = pre ++ .getSecret { Namespace := req.Namespace, Name := agent.Name } (.error e)
              :: .register body r :: tail
        ∧ IsNotFound e = true
        ∧ body = registerBody cfg agent
        ∧ ∃ s0, (c.GetAgent req s0).1 = .ok agent := by
  revert hmem
  unfold Reconcile reconcileSecret
  simp only [registerAndCreate_eq, registerTail, recordFailure_eq, Pass.prepend]
  repeat' split
  all_goals simp_all
  all_goals
    intro h1 h2
    subst h1 h2
    first
      | exact ⟨[_], [], _, _, rfl, by assumption, rfl, _, fst_of_eq (by assumption)⟩
      | exact ⟨[_], [_], _, _, rfl, by assumption, rfl, _, fst_of_eq (by assumption)⟩
      | exact ⟨[_, _, _], [], _, _, rfl, by assumption, rfl, _, fst_of_eq (by assumption)⟩
      | exact ⟨[_, _, _], [_], _, _, rfl, by assumption, rfl, _, fst_of_eq (by assumption)⟩

theorem created_secret_origin {σ : Type} (c : Collaborators σ) (cfg : AgentReconcilerConfig)
    (scheme : Scheme) (req : NamespacedName) (s : σ) (x : Secret) (u : Option GoError)
    (hmem : Event.createSecret x u ∈ (Reconcile c cfg scheme req s).2.1) :
    ∃ (s0 s1 : σ) (agent : Agent) (token : String),
      (c.GetAgent req s0).1 = .ok agent
        ∧ accessTokenSecretForAgent scheme agent token = .ok x
        ∧ c.Create x s1 = (u, (Reconcile c cfg scheme req s).2.2)
        ∧ ∃ e, Event.getSecret { Namespace := req.Namespace, Name := agent.Name } (.error e)
              ∈ (Reconcile c cfg scheme req s).2.1 ∧ IsNotFound e = true := by
  revert hmem
  unfold Reconcile reconcileSecret
  simp only [registerAndCreate_eq, registerTail, recordFailure_eq, Pass.prepend]
  repeat' split
  all_goals simp_all
  all_goals
    intro h1 h2
    subst h1 h2
    exact ⟨_, _, _, fst_of_eq (by assumption), ⟨_, by assumption⟩, rfl, _, ⟨rfl, rfl⟩,
      by assumption⟩

theorem accessTokenSecretForAgent_fields (scheme : Scheme) (agent : Agent) (token : String)
    (x : Secret) (h : accessTokenSecretForAgent scheme agent token = .ok x) :
    x.Name = agent.Name ∧ x.Namespace = agent.Namespace := by
  have hv : validateOwner agent.Namespace agent.Namespace = none := by
    unfold validateOwner
    by_cases hn : agent.Namespace = "" <;> simp [hn]
  unfold accessTokenSecretForAgent SetControllerReference at h
  simp only [hv] at h
  cases hg : GVKForObject scheme with
  | error e => simp [hg] at h
  | ok gvk =>
    simp [hg, upsertOwnerRef] at h
    subst h
    exact ⟨rfl, rfl⟩

/-! ## Decode errors -/

theorem unmarshal_error_not_apiError (body : Body) (current : String) (e : GoError)
    (h : jsonUnmarshalString body current = .error e) :
    errorsAsAPIError e = none ∧ (∀ a, e ≠ .apiErrorPtr a) ∧ (∀ a, e ≠ .apiErrorVal a) := by
  unfold jsonUnmarshalString at h
  split at h <;> simp at h <;> subst h <;> simp [errorsAsAPIError]

/-- The error `NewAPIError` returns is never matched by the `errors.As` of `Reconcile`. -/
theorem NewAPIError_not_matched (statusCode : Int) (body : Body) (e : GoError)
    (h : NewAPIError statusCode body = some e) : errorsAsAPIError e = none := by
  unfold NewAPIError at h
  split at h
  · rename_i d hd
    simp at h
    subst h
    exact (unmarshal_error_not_apiError body "" d hd).1
  · simp at h
    subst h
    rfl

theorem undecodable_rejection {σ : Type} (c : Collaborators σ) (cfg : AgentReconcilerConfig)
    (scheme : Scheme) (req : NamespacedName) (s : σ) (body : RegisterJSONRequestBody)
    (resp : RegisterResponse) (e : GoError)
    (hmem : Event.register body (.ok resp) ∈ (Reconcile c cfg scheme req s).2.1)
    (hstatus : resp.StatusCode ≠ 201)
    (hdecode : jsonUnmarshalString resp.Body "" = .error e) :
    ∃ (agent0 : Agent) (now : Nat) (r : Option GoError),
      (Reconcile c cfg scheme req s).2.1.getLast?
          = some (.statusUpdate
              (agent0.setCondition now (registeredCondition .ConditionFalse "Error" e.Error)) r)
        ∧ (Reconcile c cfg scheme req s).2.1.dropLast.getLast?
          = some (.register body (.ok resp))
        ∧ secretCreations (Reconcile c cfg scheme req s).2.1 = 0
        ∧ (Reconcile c cfg scheme req s).1
          = .returned { Requeue := false, RequeueAfter := 0 } (some (r.getD e)) := by
  have hAs := (unmarshal_error_not_apiError resp.Body "" e hdecode).1
  have hres : assertResult (.ok resp) = .returned none (some e) := by
    simp [assertResult, NewAPIError, hstatus, hdecode]
  revert hmem
  unfold Reconcile reconcileSecret
  simp only [registerAndCreate_eq, registerTail, recordFailure_eq, Pass.prepend]
  repeat' split
  all_goals simp_all [secretCreations]
  all_goals
    intro _ hr
    have h4 := hres
    rw [hr] at h4
    clear hr hres
    simp_all
  all_goals
    exact ⟨_, _, _, ⟨rfl, rfl⟩, rfl⟩

/-! ## Passes that start with the secret in place -/

theorem reconcileSecret_no_registration {σ : Type} (c : Collaborators σ)
    (cfg : AgentReconcilerConfig) (scheme : Scheme) (req : NamespacedName) (P : σ → Prop)
    (agent : Agent) (s : σ)
    (hSU : ∀ a s, P s → P (c.StatusUpdate a s).2)
    (hGS : ∀ k s, P s → P (c.GetSecret k s).2)
    (hfound : ∀ s e, P s →
      (c.GetSecret { Namespace := req.Namespace, Name := req.Name } s).1 = .error e →
      IsNotFound e = false)
    (hname : agent.Name = req.Name) (hs : P s) :
    registrations (reconcileSecret c cfg scheme req agent s).2.1 = 0
      ∧ P (reconcileSecret c cfg scheme req agent s).2.2 := by
  unfold reconcileSecret
  simp only [hname, recordFailure_eq, Pass.prepend]
  have p1 := hGS { Namespace := req.Namespace, Name := req.Name } s hs
  have f1 := hfound s
  rcases h : c.GetSecret { Namespace := req.Namespace, Name := req.Name } s with ⟨r, s1⟩
  rw [h] at p1 f1
  cases r with
  | error e =>
    have hnf := f1 e hs rfl
    simp only [hnf]
    exact ⟨by simp [registrations], hSU _ _ p1⟩
  | ok found => exact ⟨by simp [registrations], p1⟩

theorem reconcile_no_registration {σ : Type} (c : Collaborators σ)
    (cfg : AgentReconcilerConfig) (scheme : Scheme) (req : NamespacedName) (P : σ → Prop)
    (s : σ)
    (hGA : ∀ k s, P s → P (c.GetAgent k s).2)
    (hSU : ∀ a s, P s → P (c.StatusUpdate a s).2)
    (hGS : ∀ k s, P s → P (c.GetSecret k s).2)
    (hname : ∀ s a, (c.GetAgent req s).1 = .ok a → a.Name = req.Name)
    (hfound : ∀ s e, P s →
      (c.GetSecret { Namespace := req.Namespace, Name := req.Name } s).1 = .error e →
      IsNotFound e = false)
    (hs : P s) :
    registrations (Reconcile c cfg scheme req s).2.1 = 0
      ∧ P (Reconcile c cfg scheme req s).2.2 := by
  unfold Reconcile
  have p1 := hGA req s hs
  have n1 := hname s
  rcases h1 : c.GetAgent req s with ⟨r1, s1⟩
  rw [h1] at p1 n1
  cases r1 with
  | error e => exact ⟨by simp [registrations], p1⟩
  | ok agent =>
    have hn := n1 agent rfl
    simp only
    split
    · have p2 := hSU (agent.setCondition (c.Now s1)
        (registeredCondition .ConditionUnknown "Reconciling" "Starting to reconcile Agent")) s1 p1
      rcases h2 : c.StatusUpdate (agent.setCondition (c.Now s1)
        (registeredCondition .ConditionUnknown "Reconciling" "Starting to reconcile Agent")) s1
        with ⟨r2, s2⟩
      rw [h2] at p2
      cases r2 with
      | some e => exact ⟨by simp [registrations], p2⟩
      | none =>
        simp only
        have p3 := hGA req s2 p2
        have n3 := hname s2
        rcases h3 : c.GetAgent req s2 with ⟨r3, s3⟩
        rw [h3] at p3 n3
        cases r3 with
        | error e => exact ⟨by simp [registrations], p3⟩
        | ok agent2 =>
          obtain ⟨q1, q2⟩ := reconcileSecret_no_registration c cfg scheme req P agent2 s3
            hSU hGS hfound (n3 agent2 rfl) p3
          simp only [Pass.prepend]
          refine ⟨?_, q2⟩
          simp only [registrations] at q1 ⊢
          simp [List.countP_append, q1]
    · obtain ⟨q1, q2⟩ := reconcileSecret_no_registration c cfg scheme req P agent s1
        hSU hGS hfound hn p1
      simp only [Pass.prepend]
      refine ⟨?_, q2⟩
      simp only [registrations] at q1 ⊢
      simp [List.countP_append, q1]

/-! ## The store-backed collaborator -/

theorem store_getAgent_key (env : Env) (key : NamespacedName) (w : World) (a : Agent)
    (h : ((storeCollab env).GetAgent key w).1 = .ok a) :
    a.Namespace = key.Namespace ∧ a.Name = key.Name := by
  simp only [storeCollab] at h
  split at h
  · simp at h
  · split at h
    · rename_i x hx
      simp at h
      subst h
      have := List.find?_some hx
      simpa [Agent.hasKey] using this
    · simp at h

theorem store_getAgent_secrets (env : Env) (key : NamespacedName) (w : World) :
    ((storeCollab env).GetAgent key w).2.store = w.store := by
  simp only [storeCollab]
  repeat' split
  all_goals rfl

theorem store_statusUpdate_secrets (env : Env) (a : Agent) (w : World) :
    ((storeCollab env).StatusUpdate a w).2.store.secrets = w.store.secrets := by
  simp only [storeCollab]
  repeat' split
  all_goals rfl

theorem store_getSecret_store (env : Env) (key : NamespacedName) (w : World) :
    ((storeCollab env).GetSecret key w).2.store = w.store := by
  simp only [storeCollab]
  repeat' split
  all_goals rfl

theorem store_getSecret_present (env : Env) (key : NamespacedName) (w : World) (e : GoError)
    (hfault : ∀ n e, env.secretGetFault n = some e → IsNotFound e = false)
    (hhas : w.store.hasSecret key = true)
    (h : ((storeCollab env).GetSecret key w).1 = .error e) : IsNotFound e = false := by
  simp only [storeCollab] at h
  split at h
  · rename_i err herr
    simp at h
    subst h
    exact hfault _ _ herr
  · split at h
    · simp at h
    · rename_i hnone
      simp only [Store.hasSecret, List.any_eq_true] at hhas
      obtain ⟨x, hx, hk⟩ := hhas
      have := List.find?_eq_none.mp hnone x hx
      simp [hk] at this

theorem store_create_ok (env : Env) (x : Secret) (w w1 : World)
    (h : (storeCollab env).Create x w = (none, w1)) :
    w1.store.hasSecret { Namespace := x.Namespace, Name := x.Name } = true := by
  simp only [storeCollab] at h
  split at h
  · simp at h
  · split at h
    · simp at h
    · simp at h
      subst h
      simp [Store.hasSecret, Secret.hasKey]

theorem passes_keep_secret (env : Env) (cfg : AgentReconcilerConfig) (scheme : Scheme)
    (req : NamespacedName)
    (hfault : ∀ n e, env.secretGetFault n = some e → IsNotFound e = false) :
    ∀ (n : Nat) (w : World), w.store.hasSecret req = true →
      ∀ p ∈ runPasses env cfg scheme req n w, registrations p.2.1 = 0 := by
  have step : ∀ w : World, w.store.hasSecret req = true →
      registrations (Reconcile (storeCollab env) cfg scheme req w).2.1 = 0
        ∧ (Reconcile (storeCollab env) cfg scheme req w).2.2.store.hasSecret req = true := by
    intro w hw
    apply reconcile_no_registration (storeCollab env) cfg scheme req
      (fun w => w.store.hasSecret req = true) w
    · intro k s hs
      simpa [store_getAgent_secrets] using hs
    · intro a s hs
      simpa [Store.hasSecret, store_statusUpdate_secrets] using hs
    · intro k s hs
      simpa [store_getSecret_store] using hs
    · intro s a h
      exact (store_getAgent_key env req s a h).2
    · intro s e hs h
      exact store_getSecret_present env req s e hfault hs h
    · exact hw
  intro n
  induction n with
  | zero => intro w _ p hp; simp [runPasses] at hp
  | succ n ih =>
    intro w hw p hp
    simp only [runPasses, List.mem_cons] at hp
    rcases hp with hp | hp
    · subst hp
      exact (step w hw).1
    · exact ih _ (step w hw).2 p hp

/-! ## C1: the steady state -/

/-- C1. Idempotent steady state: when the resource is fetched, already has a non-empty
condition list, and the lookup of the secret under (request namespace, resource name)
finds it, the pass makes exactly the two read calls, so it calls the registration API
zero times, creates no secret and updates no status, and it returns (Requeue=false, nil). -/
theorem reconcile_steady_state {σ : Type} (c : Collaborators σ) (cfg : AgentReconcilerConfig)
    (scheme : Scheme) (req : NamespacedName) (s s1 s2 : σ) (agent : Agent) (found : Secret)
    (hget : c.GetAgent req s = (.ok agent, s1))
    (hcond : agent.Status.Conditions ≠ [])
    (hsecret : c.GetSecret { Namespace := req.Namespace, Name := agent.Name } s1
      = (.ok found, s2)) :
    Reconcile c cfg scheme req s
        = (.returned { Requeue := false, RequeueAfter := 0 } none,
            [.getAgent req (.ok agent),
             .getSecret { Namespace := req.Namespace, Name := agent.Name } (.ok found)],
            s2)
      ∧ registrations (Reconcile c cfg scheme req s).2.1 = 0
      ∧ secretCreations (Reconcile c cfg scheme req s).2.1 = 0
      ∧ statusUpdates (Reconcile c cfg scheme req s).2.1 = 0 := by
  have h : Reconcile c cfg scheme req s
        = (.returned { Requeue := false, RequeueAfter := 0 } none,
            [.getAgent req (.ok agent),
             .getSecret { Namespace := req.Namespace, Name := agent.Name } (.ok found)],
            s2) := by
    simp [Reconcile, reconcileSecret, Pass.prepend, hget, hcond, hsecret]
  rw [h]
  exact ⟨rfl, rfl, rfl, rfl⟩

/-- Witness of C1: the settled sample world. -/
theorem reconcile_steady_state_witness :
    pendingAgent.Status.Conditions ≠ []
      ∧ Reconcile (storeCollab (quietEnv (.ok sampleCreated))) sampleConfig sampleScheme
          sampleReq settledWorld
        = (.returned { Requeue := false, RequeueAfter := 0 } none,
            [.getAgent sampleReq (.ok pendingAgent),
             .getSecret { Namespace := "default", Name := "engineer" } (.ok sampleSecret)],
            { settledWorld with tick := 2 }) :=
  ⟨by decide,
   (reconcile_steady_state (storeCollab (quietEnv (.ok sampleCreated))) sampleConfig
      sampleScheme sampleReq settledWorld { settledWorld with tick := 1 }
      { settledWorld with tick := 2 } pendingAgent sampleSecret rfl (by decide) rfl).1⟩

/-! ## C2: a successful first registration -/

/-- C2. Successful first registration: for a new resource (no conditions), when the
status update and the re-fetch succeed, the secret lookup answers NotFound, the
registration answers 201 with token `t`, the owner link can be established and the
creation succeeds, the pass makes exactly these calls, in this order: fetch, status update
carrying the single condition Registered=Unknown/"Reconciling", re-fetch, secret lookup,
one registration with (spec symbol, spec faction, configured e-mail), one creation of the
secret built from the resource and `t`; it returns (Requeue=true, nil). The only status
write of the pass is the Unknown one. -/
theorem reconcile_first_registration {σ : Type} (c : Collaborators σ)
    (cfg : AgentReconcilerConfig) (scheme : Scheme) (req : NamespacedName)
    (s s1 s2 s3 s4 s5 s6 : σ) (agent agent2 : Agent) (lookupErr : GoError)
    (resp : RegisterResponse) (t : String) (secret : Secret)
    (hget : c.GetAgent req s = (.ok agent, s1))
    (hnew : agent.Status.Conditions = [])
    (hupdate : c.StatusUpdate (agent.setCondition (c.Now s1)
        (registeredCondition .ConditionUnknown "Reconciling" "Starting to reconcile Agent")) s1
      = (none, s2))
    (hrefetch : c.GetAgent req s2 = (.ok agent2, s3))
    (hlookup : c.GetSecret { Namespace := req.Namespace, Name := agent2.Name } s3
      = (.error lookupErr, s4))
    (hnotfound : IsNotFound lookupErr = true)
    (hregister : c.RegisterWithResponse
        { Symbol := agent2.Spec.Symbol, Faction := agent2.Spec.Faction, Email := some cfg.EMail }
        s4 = (.ok resp, s5))
    (hcreated : resp.StatusCode = 201)
    (htoken : resp.JSON201 = some { Token := t })
    (hsecret : accessTokenSecretForAgent scheme agent2 t = .ok secret)
    (hcreate : c.Create secret s5 = (none, s6)) :
    Reconcile c cfg scheme req s
        = (.returned { Requeue := true, RequeueAfter := 0 } none,
            [.getAgent req (.ok agent),
             .statusUpdate (agent.setCondition (c.Now s1)
               (registeredCondition .ConditionUnknown "Reconciling" "Starting to reconcile Agent"))
               none,
             .getAgent req (.ok agent2),
             .getSecret { Namespace := req.Namespace, Name := agent2.Name } (.error lookupErr),
             .register { Symbol := agent2.Spec.Symbol, Faction := agent2.Spec.Faction,
                         Email := some cfg.EMail } (.ok resp),
             .createSecret secret none],
            s6)
      ∧ (agent.setCondition (c.Now s1)
          (registeredCondition .ConditionUnknown "Reconciling" "Starting to reconcile Agent")
          ).Status.Conditions
        = [{ CondType := "Registered", Status := .ConditionUnknown, ObservedGeneration := 0,
             LastTransitionTime := c.Now s1, Reason := "Reconciling",
             Message := "Starting to reconcile Agent" }]
      ∧ registrations (Reconcile c cfg scheme req s).2.1 = 1
      ∧ secretCreations (Reconcile c cfg scheme req s).2.1 = 1
      ∧ statusUpdates (Reconcile c cfg scheme req s).2.1 = 1 := by
  have h : Reconcile c cfg scheme req s
        = (.returned { Requeue := true, RequeueAfter := 0 } none,
            [.getAgent req (.ok agent),
             .statusUpdate (agent.setCondition (c.Now s1)
               (registeredCondition .ConditionUnknown "Reconciling" "Starting to reconcile Agent"))
               none,
             .getAgent req (.ok agent2),
             .getSecret { Namespace := req.Namespace, Name := agent2.Name } (.error lookupErr),
             .register { Symbol := agent2.Spec.Symbol, Faction := agent2.Spec.Faction,
                         Email := some cfg.EMail } (.ok resp),
             .createSecret secret none],
            s6) := by
    simp [Reconcile, reconcileSecret, registerAndCreate, assertAgentPresent, Pass.prepend, hget,
      hnew, hupdate, hrefetch, hlookup, hnotfound, hregister, hcreated, htoken, hsecret, hcreate]
  rw [h]
  refine ⟨rfl, ?_, rfl, rfl, rfl⟩
  simp [Agent.setCondition, SetStatusCondition, FindStatusCondition, hnew, registeredCondition,
    typeRegisteredAgent]

/-- Witness of C2: the new sample agent, registered with token `tok-123`. -/
theorem reconcile_first_registration_witness :
    Reconcile (storeCollab (quietEnv (.ok sampleCreated))) sampleConfig sampleScheme sampleReq
        sampleWorld
      = (.returned { Requeue := true, RequeueAfter := 0 } none,
          [.getAgent sampleReq (.ok sampleAgent),
           .statusUpdate pendingAgent none,
           .getAgent sampleReq (.ok pendingAgent),
           .getSecret sampleReq (.error (notFoundError "engineer")),
           .register { Symbol := "ENGINEER", Faction := "COSMIC", Email := some "ops@example.org" }
             (.ok sampleCreated),
           .createSecret sampleSecret none],
          { store := { agents := [pendingAgent], secrets := [sampleSecret] }, tick := 6 }) :=
  (reconcile_first_registration (storeCollab (quietEnv (.ok sampleCreated))) sampleConfig
    sampleScheme sampleReq sampleWorld { sampleWorld with tick := 1 }
    { store := { agents := [pendingAgent], secrets := [] }, tick := 2 }
    { store := { agents := [pendingAgent], secrets := [] }, tick := 3 }
    { store := { agents := [pendingAgent], secrets := [] }, tick := 4 }
    { store := { agents := [pendingAgent], secrets := [] }, tick := 5 }
    { store := { agents := [pendingAgent], secrets := [sampleSecret] }, tick := 6 }
    sampleAgent pendingAgent (notFoundError "engineer") sampleCreated "tok-123" sampleSecret
    rfl rfl rfl rfl rfl rfl rfl rfl rfl rfl rfl).1

/-! ## C3: a rejection by the API -/

/-- C3, the code at the failing input. A pending agent without secret whose registration
is answered 409 with the body carrying the message "symbol already in use": the condition
written is Registered=False with reason "Error", never "Failed". With the structured
body the message is the decode error; with the body that is the bare JSON string, the
only shape `NewAPIError` decodes, the message is the one of the API but the reason is
still "Error". In both runs the pass returns a non-nil error and creates no secret.
In general no error of `NewAPIError` is matched by the `errors.As` of `Reconcile`, and
every body that is a JSON object makes `NewAPIError` return the decode error. -/
theorem reconcile_rejection_recorded_as_error :
    (∀ (statusCode : Int) (body : Body),
        (NewAPIError statusCode body).bind errorsAsAPIError = none)
    ∧ (∀ (statusCode : Int) (members : List (String × Json)),
        NewAPIError statusCode (.valid (.object members))
          = some (.jsonUnmarshalTypeError "object" "string"))
    ∧ (Reconcile (storeCollab (quietEnv (.ok sampleRejected))) sampleConfig sampleScheme sampleReq
        pendingWorld).2.2.registeredSummaries
      = [some (.ConditionFalse, "Error",
          "json: cannot unmarshal object into Go value of type string")]
    ∧ (Reconcile (storeCollab (quietEnv (.ok sampleRejected))) sampleConfig sampleScheme sampleReq
        pendingWorld).1
      = .returned { Requeue := false, RequeueAfter := 0 }
          (some (.jsonUnmarshalTypeError "object" "string"))
    ∧ (Reconcile (storeCollab (quietEnv (.ok sampleRejectedString))) sampleConfig sampleScheme
        sampleReq pendingWorld).2.2.registeredSummaries
      = [some (.ConditionFalse, "Error", "symbol already in use")]
    ∧ (Reconcile (storeCollab (quietEnv (.ok sampleRejectedString))) sampleConfig sampleScheme
        sampleReq pendingWorld).1
      = .returned { Requeue := false, RequeueAfter := 0 }
          (some (.apiErrorPtr { StatusCode := 409, Message := "symbol already in use" }))
    ∧ secretCreations (Reconcile (storeCollab (quietEnv (.ok sampleRejected)))
        sampleConfig sampleScheme sampleReq pendingWorld).2.1 = 0
    ∧ secretCreations (Reconcile (storeCollab (quietEnv (.ok sampleRejectedString)))
        sampleConfig sampleScheme sampleReq pendingWorld).2.1 = 0 := by
  refine ⟨?_, fun _ _ => rfl, by decide, rfl, by decide, rfl, by decide, by decide⟩
  intro statusCode body
  cases h : NewAPIError statusCode body with
  | none => rfl
  | some e => exact NewAPIError_not_matched statusCode body e h

/-! ## C4: at most one registration -/

/-- C4. At-most-one registration, for passes for one resource against a store that changes
only through these passes and whose secret lookups answer NotFound only when the secret
is absent. Every pass, from any world, calls the registration API at most once, and only
right after its secret lookup, under the key of the request, answered NotFound. A secret
that a pass creates has the key of that lookup, and once a pass has created it no later
pass calls the registration API. -/
theorem at_most_one_registration (env : Env) (cfg : AgentReconcilerConfig) (scheme : Scheme)
    (req : NamespacedName)
    (hfault : ∀ n e, env.secretGetFault n = some e → IsNotFound e = false) (w : World) :
    registrations (Reconcile (storeCollab env) cfg scheme req w).2.1 ≤ 1
      ∧ (∀ body r, Event.register body r ∈ (Reconcile (storeCollab env) cfg scheme req w).2.1 →
          ∃ (pre tail : List Event) (e : GoError),
            (Reconcile (storeCollab env) cfg scheme req w).2.1
                = pre ++ .getSecret req (.error e) :: .register body r :: tail
              ∧ IsNotFound e = true)
      ∧ (∀ x, Event.createSecret x none ∈ (Reconcile (storeCollab env) cfg scheme req w).2.1 →
          ({ Namespace := x.Namespace, Name := x.Name } : NamespacedName) = req
            ∧ (∃ e, Event.getSecret { Namespace := x.Namespace, Name := x.Name } (.error e)
                ∈ (Reconcile (storeCollab env) cfg scheme req w).2.1)
            ∧ ∀ n, ∀ p ∈ runPasses env cfg scheme req n
                (Reconcile (storeCollab env) cfg scheme req w).2.2,
                registrations p.2.1 = 0) := by
  refine ⟨(reconcile_counts (storeCollab env) cfg scheme req w).2.2, ?_, ?_⟩
  · intro body r hmem
    obtain ⟨pre, tail, e, agent, htrace, hnf, _, s0, hs0⟩ :=
      register_after_notFound (storeCollab env) cfg scheme req w body r hmem
    have hk := store_getAgent_key env req s0 agent hs0
    refine ⟨pre, tail, e, ?_, hnf⟩
    rw [htrace, hk.2]
  · intro x hmem
    obtain ⟨s0, s1, agent, token, hs0, hsecret, hcreate, e, hlookup, _⟩ :=
      created_secret_origin (storeCollab env) cfg scheme req w x none hmem
    have hk := store_getAgent_key env req s0 agent hs0
    have hx : x.Name = agent.Name ∧ x.Namespace = agent.Namespace := by
      have h := (accessTokenSecretForAgent_fields scheme agent token x hsecret)
      exact h
    have hkey : ({ Namespace := x.Namespace, Name := x.Name } : NamespacedName) = req := by
      rw [hx.1, hx.2, hk.1, hk.2]
    refine ⟨hkey, ⟨e, ?_⟩, ?_⟩
    · rw [hx.1, hx.2, hk.1]
      exact hlookup
    · have hhas := store_create_ok env x s1 _ hcreate
      rw [hkey] at hhas
      exact fun n => passes_keep_secret env cfg scheme req hfault n _ hhas

/-- Witness of C4: in the sample world, where one later lookup fails with an internal
error, the first pass registers and creates the secret and no later pass registers. -/
theorem at_most_one_registration_witness :
    (∀ n e, flakyEnv.secretGetFault n = some e → IsNotFound e = false)
      ∧ registrations (Reconcile (storeCollab flakyEnv) sampleConfig sampleScheme sampleReq
          sampleWorld).2.1 = 1
      ∧ ∀ n, ∀ p ∈ runPasses flakyEnv sampleConfig sampleScheme sampleReq n
          (Reconcile (storeCollab flakyEnv) sampleConfig sampleScheme sampleReq sampleWorld).2.2,
          registrations p.2.1 = 0 :=
  ⟨fun n e h => by
      unfold flakyEnv at h
      simp only at h
      split at h
      · simp at h
        subst h
        decide
      · simp at h,
   by decide,
   ((at_most_one_registration flakyEnv sampleConfig sampleScheme sampleReq
      (fun n e h => by
        unfold flakyEnv at h
        simp only at h
        split at h
        · simp at h
          subst h
          decide
        · simp at h)
      sampleWorld).2.2 sampleSecret (List.getElem?_mem (n := 5) rfl)).2.2⟩

/-! ## C5: conflicts on the status update -/

/-- C5. Conflict resilience: when a status update of a pass fails with a conflict, that
update is the last call of the pass (no registration, secret creation or status write
follows it), every status update before it succeeded and wrote the initial
Registered=Unknown condition, so no False condition derived from the conflict is
written, and the pass returns the conflict error, on which the dispatcher requeues the
request. (The same holds for a status update that fails with any other error.) -/
theorem reconcile_conflict_aborts {σ : Type} (c : Collaborators σ)
    (cfg : AgentReconcilerConfig) (scheme : Scheme) (req : NamespacedName) (s : σ)
    (agent : Agent) (err : GoError)
    (hmem : Event.statusUpdate agent (some err) ∈ (Reconcile c cfg scheme req s).2.1)
    (_hconflict : IsConflict err = true) :
    ∃ (pre : List Event) (res : Result),
      (Reconcile c cfg scheme req s).2.1 = pre ++ [.statusUpdate agent (some err)]
        ∧ (∀ a r, Event.statusUpdate a r ∈ pre →
            r = none ∧ ∃ cnd, a.registered = some cnd
              ∧ cnd.Status = .ConditionUnknown ∧ cnd.Reason = "Reconciling")
        ∧ (Reconcile c cfg scheme req s).1 = .returned res (some err)
        ∧ requeueRequested res (some err) = true := by
  obtain ⟨hlast, _, res, hres⟩ := failed_update_last c cfg scheme req s agent err hmem
  refine ⟨(Reconcile c cfg scheme req s).2.1.dropLast, res, ?_, ?_, hres, by simp [requeueRequested]⟩
  · exact (List.dropLast_append_getLast? _ hlast).symm
  · intro a r ha
    obtain ⟨hr, agent0, now, hagent⟩ := early_updates_initial c cfg scheme req s a r ha
    obtain ⟨cnd, h1, h2, h3, _⟩ := registered_setCondition agent0 now .ConditionUnknown
      "Reconciling" "Starting to reconcile Agent"
    exact ⟨hr, cnd, by rw [hagent]; exact h1, h2, h3⟩

/-- Witness of C5: the first status update of the new sample agent meets a conflict. -/
theorem reconcile_conflict_aborts_witness :
    IsConflict conflictError = true
      ∧ ∃ (pre : List Event) (res : Result),
        (Reconcile (storeCollab conflictEnv) sampleConfig sampleScheme sampleReq sampleWorld).2.1
            = pre ++ [.statusUpdate pendingAgent (some conflictError)]
          ∧ (∀ a r, Event.statusUpdate a r ∈ pre →
              r = none ∧ ∃ cnd, a.registered = some cnd
                ∧ cnd.Status = .ConditionUnknown ∧ cnd.Reason = "Reconciling")
          ∧ (Reconcile (storeCollab conflictEnv) sampleConfig sampleScheme sampleReq
              sampleWorld).1 = .returned res (some conflictError)
          ∧ requeueRequested res (some conflictError) = true :=
  ⟨by decide,
   reconcile_conflict_aborts (storeCollab conflictEnv) sampleConfig sampleScheme sampleReq
     sampleWorld pendingAgent conflictError (List.getElem?_mem (n := 1) rfl) (by decide)⟩

/-! ## C6: the credential provisioner -/

/-- C6. The credential provisioner: `accessTokenSecretForAgent` is a function of the
scheme, the agent and the token. When the owner link can be established (the scheme
knows the kind of the agent) it returns the secret named and namespaced as the agent,
with the four fixed labels (instance = agent name), the single entry
access-token = token, marked immutable, and carrying exactly one owner reference, a
controller reference to the agent; otherwise it returns the error of
`SetControllerReference` and no secret. It fails exactly when `SetControllerReference`
on the bare secret fails. -/
theorem accessTokenSecretForAgent_spec (scheme : Scheme) (agent : Agent) (token : String) :
    accessTokenSecretForAgent scheme agent token
        = (match GVKForObject scheme with
           | .error err => .error err
           | .ok gvk =>
              .ok { Name := agent.Name
                    Namespace := agent.Namespace
                    Labels :=
                      [("app.kubernetes.io/name", "spacetraders-operator"),
                       ("app.kubernetes.io/instance", agent.Name),
                       ("app.kubernetes.io/part-of", "spacetraders-operator"),
                       ("app.kubernetes.io/created-by", "controller-manager")]
                    OwnerReferences :=
                      [{ APIVersion := gvk.apiVersion, Kind := gvk.Kind, Name := agent.Name,
                         UID := agent.UID, Controller := some true,
                         BlockOwnerDeletion := some true }]
                    SecretType := "Opaque"
                    StringData := [("access-token", token)]
                    Immutable := some true })
      ∧ (∀ err, accessTokenSecretForAgent scheme agent token = .error err ↔
          SetControllerReference agent
            { Name := agent.Name, Namespace := agent.Namespace,
              Labels := labelsForAccessTokenSecret agent.Name, OwnerReferences := [],
              SecretType := "Opaque", StringData := [("access-token", token)],
              Immutable := some true } scheme = .error err) := by
  have hv : validateOwner agent.Namespace agent.Namespace = none := by
    unfold validateOwner
    by_cases h : agent.Namespace = "" <;> simp [h]
  constructor
  · unfold accessTokenSecretForAgent SetControllerReference
    simp only [hv]
    cases GVKForObject scheme with
    | error e => rfl
    | ok gvk => simp [upsertOwnerRef, labelsForAccessTokenSecret]
  · intro err
    unfold accessTokenSecretForAgent
    simp only
    cases SetControllerReference agent _ scheme with
    | error e => simp
    | ok x => simp

/-! ## C7: the Registered condition once the secret exists -/

/-- Counterexample to C7 as stated: the first pass for the new sample agent registers
and creates the secret, the second pass finds the secret, and the Registered condition
of the stored agent is Unknown after it, not True. -/
theorem registered_true_not_reached :
    (Reconcile (storeCollab (quietEnv (.ok sampleCreated))) sampleConfig sampleScheme sampleReq
        sampleWorld).1 = .returned { Requeue := true, RequeueAfter := 0 } none
      ∧ (runPasses (quietEnv (.ok sampleCreated)) sampleConfig sampleScheme sampleReq 2
          sampleWorld).map (fun p => (registrations p.2.1, secretCreations p.2.1))
        = [(1, 1), (0, 0)]
      ∧ (runPasses (quietEnv (.ok sampleCreated)) sampleConfig sampleScheme sampleReq 2
          sampleWorld).map (fun p => p.2.1.getLast?)
        = [some (.createSecret sampleSecret none),
           some (.getSecret sampleReq (.ok sampleSecret))]
      ∧ (runPasses (quietEnv (.ok sampleCreated)) sampleConfig sampleScheme sampleReq 2
          sampleWorld).map (fun p => p.2.2.registeredSummaries)
        = [[some (.ConditionUnknown, "Reconciling", "Starting to reconcile Agent")],
           [some (.ConditionUnknown, "Reconciling", "Starting to reconcile Agent")]]
      ∧ ∀ p ∈ runPasses (quietEnv (.ok sampleCreated)) sampleConfig sampleScheme sampleReq 2
          sampleWorld, ∀ a ∈ p.2.2.store.agents,
            a.registered.map Condition.Status ≠ some .ConditionTrue := by
  refine ⟨rfl, by decide, rfl, by decide, by decide⟩

/-- C7, amended. Whenever a pass finds the credential secret, the lookup is the last call
of the pass and the pass returns (Requeue=false, nil); the only status write such a pass
makes is the initial one of a resource without conditions, which succeeded and set
Registered to Unknown/"Reconciling". The pass does not set Registered to True: the
persisted condition stays what it was, Unknown after a first registration. -/
theorem reconcile_found_secret_keeps_condition {σ : Type} (c : Collaborators σ)
    (cfg : AgentReconcilerConfig) (scheme : Scheme) (req : NamespacedName) (s : σ)
    (key : NamespacedName) (found : Secret)
    (hmem : Event.getSecret key (.ok found) ∈ (Reconcile c cfg scheme req s).2.1) :
    ∃ pre : List Event,
      (Reconcile c cfg scheme req s).2.1 = pre ++ [.getSecret key (.ok found)]
        ∧ (Reconcile c cfg scheme req s).1
            = .returned { Requeue := false, RequeueAfter := 0 } none
        ∧ ∀ a r, Event.statusUpdate a r ∈ (Reconcile c cfg scheme req s).2.1 →
            r = none ∧ ∃ cnd, a.registered = some cnd
              ∧ cnd.Status = .ConditionUnknown ∧ cnd.Reason = "Reconciling" := by
  obtain ⟨hlast, hout⟩ := found_secret_last c cfg scheme req s key found hmem
  have hsplit := List.dropLast_append_getLast? _ hlast
  refine ⟨(Reconcile c cfg scheme req s).2.1.dropLast, hsplit.symm, hout, ?_⟩
  intro a r ha
  rw [← hsplit] at ha
  simp only [List.mem_append, List.mem_singleton] at ha
  rcases ha with ha | ha
  · obtain ⟨hr, agent0, now, hagent⟩ := early_updates_initial c cfg scheme req s a r ha
    obtain ⟨cnd, h1, h2, h3, _⟩ := registered_setCondition agent0 now .ConditionUnknown
      "Reconciling" "Starting to reconcile Agent"
    exact ⟨hr, cnd, by rw [hagent]; exact h1, h2, h3⟩
  · cases ha

/-- Witness of C7, amended: the settled sample world. -/
theorem reconcile_found_secret_keeps_condition_witness :
    ∃ pre : List Event,
      (Reconcile (storeCollab (quietEnv (.ok sampleCreated))) sampleConfig sampleScheme
          sampleReq settledWorld).2.1 = pre ++ [.getSecret sampleReq (.ok sampleSecret)]
        ∧ (Reconcile (storeCollab (quietEnv (.ok sampleCreated))) sampleConfig sampleScheme
            sampleReq settledWorld).1
            = .returned { Requeue := false, RequeueAfter := 0 } none
        ∧ ∀ a r, Event.statusUpdate a r ∈ (Reconcile (storeCollab (quietEnv (.ok sampleCreated)))
              sampleConfig sampleScheme sampleReq settledWorld).2.1 →
            r = none ∧ ∃ cnd, a.registered = some cnd
              ∧ cnd.Status = .ConditionUnknown ∧ cnd.Reason = "Reconciling" :=
  reconcile_found_secret_keeps_condition (storeCollab (quietEnv (.ok sampleCreated)))
    sampleConfig sampleScheme sampleReq settledWorld sampleReq sampleSecret
    (List.getElem?_mem (n := 1) rfl)

/-! ## C8: a deleted resource -/

/-- C8. A failed initial fetch is benign: the pass makes no call besides the fetch (no
registration, no secret creation, no status update) and returns Requeue=false; the error
returned is nil when the fetch error is NotFound and the fetch error itself otherwise. -/
theorem reconcile_fetch_failure {σ : Type} (c : Collaborators σ) (cfg : AgentReconcilerConfig)
    (scheme : Scheme) (req : NamespacedName) (s s1 : σ) (err : GoError)
    (hget : c.GetAgent req s = (.error err, s1)) :
    Reconcile c cfg scheme req s
        = (.returned { Requeue := false, RequeueAfter := 0 }
            (if IsNotFound err then none else some err),
            [.getAgent req (.error err)], s1)
      ∧ registrations (Reconcile c cfg scheme req s).2.1 = 0
      ∧ secretCreations (Reconcile c cfg scheme req s).2.1 = 0
      ∧ statusUpdates (Reconcile c cfg scheme req s).2.1 = 0 := by
  have h : Reconcile c cfg scheme req s
        = (.returned { Requeue := false, RequeueAfter := 0 }
            (if IsNotFound err then none else some err),
            [.getAgent req (.error err)], s1) := by
    simp [Reconcile, hget, IgnoreNotFound]
  rw [h]
  exact ⟨rfl, rfl, rfl, rfl⟩

/-- Witness of C8: the agent is not in the store, the pass returns no error. -/
theorem reconcile_fetch_failure_witness :
    Reconcile (storeCollab (quietEnv (.ok sampleCreated))) sampleConfig sampleScheme
        sampleReq emptyWorld
      = (.returned { Requeue := false, RequeueAfter := 0 } none,
          [.getAgent sampleReq (.error (notFoundError "engineer"))],
          { emptyWorld with tick := 1 }) :=
  (reconcile_fetch_failure (storeCollab (quietEnv (.ok sampleCreated))) sampleConfig
    sampleScheme sampleReq emptyWorld { emptyWorld with tick := 1 }
    (notFoundError "engineer") rfl).1

/-! ## C9: an unparseable rejection -/

/-- C9. An unparseable rejection is never dropped. For every response body that fails to
decode, `NewAPIError` returns, for every status code, the decode error: a non-nil error
that is not an `APIError`. A pass whose registration call is answered with such a body
and a status other than 201 next updates the status with Registered=False, reason
"Error" and the text of that error as message, creates no secret, and returns a non-nil
error: the decode error, or the error of the status update when that update fails. -/
theorem reconcile_undecodable_rejection {σ : Type} (c : Collaborators σ)
    (cfg : AgentReconcilerConfig) (scheme : Scheme) (req : NamespacedName) (s : σ)
    (body : RegisterJSONRequestBody) (resp : RegisterResponse) (e : GoError)
    (hmem : Event.register body (.ok resp) ∈ (Reconcile c cfg scheme req s).2.1)
    (hstatus : resp.StatusCode ≠ 201)
    (hdecode : jsonUnmarshalString resp.Body "" = .error e) :
    (∀ statusCode : Int, NewAPIError statusCode resp.Body = some e)
      ∧ errorsAsAPIError e = none
      ∧ (∀ a, e ≠ .apiErrorPtr a) ∧ (∀ a, e ≠ .apiErrorVal a)
      ∧ ∃ (pre : List Event) (agent1 : Agent) (r : Option GoError) (cnd : Condition),
          (Reconcile c cfg scheme req s).2.1
              = pre ++ [.register body (.ok resp), .statusUpdate agent1 r]
            ∧ agent1.registered = some cnd
            ∧ cnd.Status = .ConditionFalse ∧ cnd.Reason = "Error" ∧ cnd.Message = e.Error
            ∧ secretCreations (Reconcile c cfg scheme req s).2.1 = 0
            ∧ (Reconcile c cfg scheme req s).1
                = .returned { Requeue := false, RequeueAfter := 0 } (some (r.getD e)) := by
  obtain ⟨hAs, hptr, hval⟩ := unmarshal_error_not_apiError resp.Body "" e hdecode
  refine ⟨fun statusCode => by simp [NewAPIError, hdecode], hAs, hptr, hval, ?_⟩
  obtain ⟨agent0, now, r, hlast, hprev, hcreate, hout⟩ :=
    undecodable_rejection c cfg scheme req s body resp e hmem hstatus hdecode
  obtain ⟨cnd, hc, h1, h2, h3⟩ :=
    registered_setCondition agent0 now .ConditionFalse "Error" e.Error
  refine ⟨(Reconcile c cfg scheme req s).2.1.dropLast.dropLast, _, r, cnd, ?_, hc, h1, h2, h3,
    hcreate, hout⟩
  have e1 := List.dropLast_append_getLast? _ hlast
  have e2 := List.dropLast_append_getLast? _ hprev
  rw [← e1, ← e2]
  simp

/-- Witness of C9: the registration of the pending sample agent is answered 502 with a
body that is not JSON. -/
theorem reconcile_undecodable_rejection_witness :
    sampleGarbled.StatusCode ≠ 201
      ∧ jsonUnmarshalString sampleGarbled.Body ""
          = .error (.jsonSyntaxError "unexpected end of JSON input")
      ∧ ∃ (pre : List Event) (agent1 : Agent) (r : Option GoError) (cnd : Condition),
          (Reconcile (storeCollab (quietEnv (.ok sampleGarbled))) sampleConfig sampleScheme
              sampleReq pendingWorld).2.1
              = pre ++ [.register (registerBody sampleConfig pendingAgent) (.ok sampleGarbled),
                  .statusUpdate agent1 r]
            ∧ agent1.registered = some cnd
            ∧ cnd.Status = .ConditionFalse ∧ cnd.Reason = "Error"
            ∧ cnd.Message = (GoError.jsonSyntaxError "unexpected end of JSON input").Error
            ∧ secretCreations (Reconcile (storeCollab (quietEnv (.ok sampleGarbled)))
                sampleConfig sampleScheme sampleReq pendingWorld).2.1 = 0
            ∧ (Reconcile (storeCollab (quietEnv (.ok sampleGarbled))) sampleConfig sampleScheme
                sampleReq pendingWorld).1
                = .returned { Requeue := false, RequeueAfter := 0 }
                    (some (r.getD (.jsonSyntaxError "unexpected end of JSON input"))) :=
  ⟨by decide, rfl,
   (reconcile_undecodable_rejection (storeCollab (quietEnv (.ok sampleGarbled))) sampleConfig
      sampleScheme sampleReq pendingWorld (registerBody sampleConfig pendingAgent) sampleGarbled
      (.jsonSyntaxError "unexpected end of JSON input")
      (List.getElem?_mem (n := 2) rfl) (by decide) rfl).2.2.2.2⟩

/-! ## C10: bounded effects -/

/-- Counterexample to C10 as stated: a new resource whose registration is rejected gets
two status updates in one pass, the initial Unknown write and the False write. -/
theorem reconcile_two_status_updates :
    statusUpdates (Reconcile (storeCollab (quietEnv (.ok sampleRejected))) sampleConfig
        sampleScheme sampleReq sampleWorld).2.1 = 2
      ∧ ¬ statusUpdates (Reconcile (storeCollab (quietEnv (.ok sampleRejected))) sampleConfig
        sampleScheme sampleReq sampleWorld).2.1 ≤ 1 := by
  decide

/-- C10, amended. Bounded effects per pass: for every state and every behaviour of the
collaborators, one pass performs at most two status updates (the initial Unknown write
and one failure write), at most one secret creation and at most one registration call. -/
theorem reconcile_bounded_effects {σ : Type} (c : Collaborators σ)
    (cfg : AgentReconcilerConfig) (scheme : Scheme) (req : NamespacedName) (s : σ) :
    statusUpdates (Reconcile c cfg scheme req s).2.1 ≤ 2
      ∧ secretCreations (Reconcile c cfg scheme req s).2.1 ≤ 1
      ∧ registrations (Reconcile c cfg scheme req s).2.1 ≤ 1 := by
  exact reconcile_counts c cfg scheme req s

end SpacetradersOperator
